import Mathlib

/-!
# Verification of the `runotebook` interactive terminal gateway

Shallow embedding of the parts of `src/main.rs`, `src/config.rs` and
`src/file_ops.rs` that the claims concern.  Rust `String` values that carry
raw terminal bytes are modelled as `List Nat` (the string's UTF-8 byte
content); identifiers and human-readable messages stay Lean `String`s.
The `std::collections::HashMap` session registry is modelled as an
association list with `HashMap`-faithful insert (replace on collision),
remove and lookup.  Calls into the operating system (pty allocation,
process spawn, filesystem canonicalisation, ...) are modelled as oracle
parameters recording the outcome of each call; the functions under
verification sequence them exactly as the Rust source does.
-/

set_option autoImplicit false

namespace Runotebook

/-- Raw bytes (the content of a Rust `String`/`[u8]` buffer). -/
abbrev Bytes := List Nat

/-! ## Session registry: `HashMap<String, PtySession>` as an association list -/

/-- `HashMap::get`: first binding for the key. -/
def mapGet {V : Type} (k : String) : List (String × V) → Option V
  | [] => none
  | (k₂, v) :: rest => if k₂ = k then some v else mapGet k rest

/-- `HashMap::insert`: replaces the binding when the key is present,
otherwise appends a fresh binding. -/
def mapInsert {V : Type} (k : String) (v : V) : List (String × V) → List (String × V)
  | [] => [(k, v)]
  | (k₂, v₂) :: rest =>
    if k₂ = k then (k, v) :: rest else (k₂, v₂) :: mapInsert k v rest

/-- `HashMap::remove`: deletes every binding of the key (there is at most
one when the list is used as a map). -/
def mapRemove {V : Type} (k : String) : List (String × V) → List (String × V)
  | [] => []
  | (k₂, v) :: rest =>
    if k₂ = k then mapRemove k rest else (k₂, v) :: mapRemove k rest

/-- Keys currently bound in the map. -/
def mapKeys {V : Type} (m : List (String × V)) : List String := m.map Prod.fst

/-! ## Gateway data model (`src/main.rs`) -/

/-- `portable_pty::PtySize`. -/
structure PtySize where
  rows : Nat
  cols : Nat
  pixel_width : Nat
  pixel_height : Nat
  deriving Repr, DecidableEq

/-- `struct PtySession { writer, master }`: the two handles kept in the
registry.  Handles are opaque; we model them as numeric identifiers. -/
structure PtySession where
  writer : Nat
  master : Nat
  deriving Repr, DecidableEq

/-- `AppState.sessions : Mutex<HashMap<String, PtySession>>`, the single
process-wide session registry (`main` builds one `Arc<AppState>` and hands
the same one to every connection). -/
abbrev Registry := List (String × PtySession)

/-- `enum WsMessage` (inbound frames).  `data` fields carry raw bytes. -/
inductive WsMessage where
  | create (id : Option String)
  | input (session_id : String) (data : Bytes)
  | resize (session_id : String) (cols rows : Nat)
  | close (session_id : String)
  deriving Repr, DecidableEq

/-- `enum WsResponse` (outbound frames).  The `data` of `output` is the
UTF-8 byte content of the transmitted string. -/
inductive WsResponse where
  | created (session_id : String)
  | output (session_id : String) (data : Bytes)
  | closed (session_id : String)
  | error (message : String)
  deriving Repr, DecidableEq

/-- Side effects the handlers perform on the operating system and on the
pty handles, in program order. -/
inductive Effect where
  | openPty (size : PtySize)
  | spawnShell
  | spawnReaderThread (session_id : String)
  | writeBytes (writer : Nat) (data : Bytes)
  | flushWriter (writer : Nat)
  | resizePty (master : Nat) (size : PtySize)
  deriving Repr, DecidableEq

/-- The `PtySize` literal passed to `openpty` in `create_pty_session`:
`PtySize { rows: 24, cols: 80, pixel_width: 0, pixel_height: 0 }`. -/
def defaultPtySize : PtySize := ⟨24, 80, 0, 0⟩

/-- Outcomes of the fallible OS calls made by `create_pty_session`, in the
order the source makes them: `openpty`, `slave.spawn_command`,
`master.take_writer`, `master.try_clone_reader`.  `openpty`'s success value
is the master handle; `take_writer`'s is the writer handle. -/
structure SpawnEnv where
  openpty : Except String Nat
  spawnCommand : Except String Unit
  takeWriter : Except String Nat
  cloneReader : Except String Unit
  deriving Repr

/-- `create_pty_session(session_id, state, tx)`: opens the pty at
`defaultPtySize`, spawns the shell, takes the writer and reader, starts the
reader thread, and only then inserts the session into the registry.  Any
failure returns the error with the registry untouched. -/
def create_pty_session (session_id : String) (env : SpawnEnv) (reg : Registry) :
    Except String Registry × List Effect :=
  match env.openpty with
  | .error e => (.error e, [.openPty defaultPtySize])
  | .ok master =>
    match env.spawnCommand with
    | .error e => (.error e, [.openPty defaultPtySize, .spawnShell])
    | .ok _ =>
      match env.takeWriter with
      | .error e => (.error e, [.openPty defaultPtySize, .spawnShell])
      | .ok writer =>
        match env.cloneReader with
        | .error e => (.error e, [.openPty defaultPtySize, .spawnShell])
        | .ok _ =>
          (.ok (mapInsert session_id ⟨writer, master⟩ reg),
            [.openPty defaultPtySize, .spawnShell, .spawnReaderThread session_id])

/-- One dispatcher step of the receiver task in `ws_handler`: the
`match ws_msg { ... }` on a decoded frame.  `freshId` is the
`Uuid::new_v4()` drawn when `create` carries no id.  Returns the new
registry, the effects performed, and the outbound frames sent. -/
def handleWsMessage (reg : Registry) (env : SpawnEnv) (freshId : String) :
    WsMessage → Registry × List Effect × List WsResponse
  | .create id =>
    let session_id := id.getD freshId
    match create_pty_session session_id env reg with
    | (.ok reg₂, effs) => (reg₂, effs, [.created session_id])
    | (.error e, effs) => (reg, effs, [.error e])
  | .input session_id data =>
    match mapGet session_id reg with
    | some s => (reg, [.writeBytes s.writer data, .flushWriter s.writer], [])
    | none => (reg, [], [])
  | .resize session_id cols rows =>
    match mapGet session_id reg with
    | some s => (reg, [.resizePty s.master ⟨rows, cols, 0, 0⟩], [])
    | none => (reg, [], [])
  | .close session_id =>
    (mapRemove session_id reg, [], [.closed session_id])

/-! ## `String::from_utf8_lossy` on raw bytes

The reader thread converts each read chunk with
`String::from_utf8_lossy(&buf[..n]).to_string()`.  We model the byte
content of the resulting string: valid UTF-8 sequences are copied
verbatim, and each maximal invalid subpart is replaced by the UTF-8
encoding of U+FFFD (`EF BF BD`), with the resynchronisation lengths of
`core::str`'s validator (`error_len` 1, 2 or 3). -/

/-- UTF-8 continuation byte: `0x80 ..= 0xBF`. -/
def isCont (b : Nat) : Bool := 0x80 ≤ b && b ≤ 0xBF

/-- Admissible second byte of a three-byte sequence headed by `b`. -/
def valid3Second (b b₂ : Nat) : Bool :=
  if b = 0xE0 then 0xA0 ≤ b₂ && b₂ ≤ 0xBF
  else if b = 0xED then 0x80 ≤ b₂ && b₂ ≤ 0x9F
  else isCont b₂

/-- Admissible second byte of a four-byte sequence headed by `b`. -/
def valid4Second (b b₂ : Nat) : Bool :=
  if b = 0xF0 then 0x90 ≤ b₂ && b₂ ≤ 0xBF
  else if b = 0xF4 then 0x80 ≤ b₂ && b₂ ≤ 0x8F
  else isCont b₂

/-- UTF-8 encoding of U+FFFD REPLACEMENT CHARACTER. -/
def replacementBytes : Bytes := [0xEF, 0xBF, 0xBD]

/-- Byte content of `String::from_utf8_lossy` applied to the byte list. -/
def utf8LossyBytes : Bytes → Bytes
  | [] => []
  | b :: rest =>
    if b < 0x80 then b :: utf8LossyBytes rest
    else if b < 0xC2 then replacementBytes ++ utf8LossyBytes rest
    else if b < 0xE0 then
      match rest with
      | [] => replacementBytes
      | b₂ :: rest₂ =>
        if isCont b₂ then b :: b₂ :: utf8LossyBytes rest₂
        else replacementBytes ++ utf8LossyBytes (b₂ :: rest₂)
    else if b < 0xF0 then
      match rest with
      | [] => replacementBytes
      | b₂ :: rest₂ =>
        if valid3Second b b₂ then
          match rest₂ with
          | [] => replacementBytes
          | b₃ :: rest₃ =>
            if isCont b₃ then b :: b₂ :: b₃ :: utf8LossyBytes rest₃
            else replacementBytes ++ utf8LossyBytes (b₃ :: rest₃)
        else replacementBytes ++ utf8LossyBytes (b₂ :: rest₂)
    else if b < 0xF5 then
      match rest with
      | [] => replacementBytes
      | b₂ :: rest₂ =>
        if valid4Second b b₂ then
          match rest₂ with
          | [] => replacementBytes
          | b₃ :: rest₃ =>
            if isCont b₃ then
              match rest₃ with
              | [] => replacementBytes
              | b₄ :: rest₄ =>
                if isCont b₄ then b :: b₂ :: b₃ :: b₄ :: utf8LossyBytes rest₄
                else replacementBytes ++ utf8LossyBytes (b₄ :: rest₄)
            else replacementBytes ++ utf8LossyBytes (b₃ :: rest₃)
        else replacementBytes ++ utf8LossyBytes (b₂ :: rest₂)
    else replacementBytes ++ utf8LossyBytes rest

/-- `str::from_utf8(bytes).is_ok()`: the byte list is well-formed UTF-8. -/
def isValidUtf8 : Bytes → Bool
  | [] => true
  | b :: rest =>
    if b < 0x80 then isValidUtf8 rest
    else if b < 0xC2 then false
    else if b < 0xE0 then
      match rest with
      | [] => false
      | b₂ :: rest₂ => isCont b₂ && isValidUtf8 rest₂
    else if b < 0xF0 then
      match rest with
      | [] => false
      | b₂ :: rest₂ =>
        valid3Second b b₂ &&
          match rest₂ with
          | [] => false
          | b₃ :: rest₃ => isCont b₃ && isValidUtf8 rest₃
    else if b < 0xF5 then
      match rest with
      | [] => false
      | b₂ :: rest₂ =>
        valid4Second b b₂ &&
          match rest₂ with
          | [] => false
          | b₃ :: rest₃ =>
            isCont b₃ &&
              match rest₃ with
              | [] => false
              | b₄ :: rest₄ => isCont b₄ && isValidUtf8 rest₄
    else false

/-! ## Reader thread and receiver task loops -/

/-- One result of `reader.read(&mut buf)` in the reader thread: `ok chunk`
models `Ok(n)` returning the bytes read (`Ok(0)`, i.e. `chunk = []`, is
end-of-stream) and `err` models `Err(_)`. -/
inductive ReadResult where
  | ok (chunk : Bytes)
  | err
  deriving Repr, DecidableEq

/-- The reader-thread loop in `create_pty_session`: forwards each nonempty
chunk as one `output` frame whose data is the lossy UTF-8 conversion of
the chunk, and breaks out of the loop on `Ok(0)` (EOF) or on a read
error — nothing else happens on either exit. -/
def readLoop (session_id : String) : List ReadResult → List WsResponse
  | [] => []
  | .ok [] :: _ => []
  | .ok (b :: bs) :: rest =>
    .output session_id (utf8LossyBytes (b :: bs)) :: readLoop session_id rest
  | .err :: _ => []

/-- Frame classifier for counting `closed{session_id}` emissions. -/
def isClosedFrame : WsResponse → Bool
  | .closed _ => true
  | _ => false

/-- Data payload of an `output` frame (empty for other frames). -/
def outputData : WsResponse → Bytes
  | .output _ d => d
  | _ => []

/-- Concatenation of the `data` fields of a frame list, in order. -/
def outputConcat (rs : List WsResponse) : Bytes := (rs.map outputData).flatten

/-- One event seen by the receiver task's `msg_stream.next()` loop.  A
`text` event carries the `serde_json` decode result of the frame
(`none` = undecodable). -/
inductive ConnEvent where
  | text (decoded : Option WsMessage)
  | binary
  | ping
  | pong
  | closeFrame
  | recvError
  | other

/-- The receiver task of `ws_handler`: handles events strictly in order,
dispatching decoded text frames through `handleWsMessage`, dropping
undecodable ones, and breaking out of the loop on a websocket `Close`
frame or a receive error — after which the task merely ends: no registry
mutation and no process-level cleanup follows the break.  `env n` and
`fresh n` are the spawn outcomes and generated uuid for the `n`-th
`create` processed. -/
def receiverLoop (env : Nat → SpawnEnv) (fresh : Nat → String) :
    Nat → Registry → List ConnEvent → Registry × List Effect × List WsResponse
  | _, reg, [] => (reg, [], [])
  | n, reg, ev :: rest =>
    match ev with
    | .closeFrame => (reg, [], [])
    | .recvError => (reg, [], [])
    | .text none => receiverLoop env fresh n reg rest
    | .text (some m) =>
      let step := handleWsMessage reg (env n) (fresh n) m
      let n₂ := match m with
        | .create _ => n + 1
        | _ => n
      let next := receiverLoop env fresh n₂ step.1 rest
      (next.1, step.2.1 ++ next.2.1, step.2.2 ++ next.2.2)
    | .binary => receiverLoop env fresh n reg rest
    | .ping => receiverLoop env fresh n reg rest
    | .pong => receiverLoop env fresh n reg rest
    | .other => receiverLoop env fresh n reg rest

/-- Identity of a client connection. -/
abbrev ConnId := Nat

/-- Server-level dispatch.  `main` builds a single `Arc<AppState>` and
passes the same one to every `ws_handler` call, so a frame is handled
against the one process-wide registry whichever connection sent it; the
sender's identity is used only to route the textual responses back to its
own websocket. -/
def serverStep (reg : Registry) (env : SpawnEnv) (freshId : String) (conn : ConnId)
    (m : WsMessage) : Registry × List Effect × List (ConnId × WsResponse) :=
  let step := handleWsMessage reg env freshId m
  (step.1, step.2.1, step.2.2.map (fun r => (conn, r)))

/-! ## Authentication (`ws_handler` prelude and `config.rs`) -/

/-- `ConfigManager::verify_token`: equality with the stored shared token. -/
def verify_token (configToken token : String) : Bool := configToken == token

/-- `str::split(c)`: segments between occurrences of the character,
keeping empty segments. -/
def splitChar (c : Char) : List Char → List (List Char)
  | [] => [[]]
  | x :: rest =>
    if x = c then [] :: splitChar c rest
    else
      match splitChar c rest with
      | [] => [[x]]
      | seg :: segs => (x :: seg) :: segs

/-- `str::splitn(2, '=')`: the part before the first `=` and, when a `=`
occurs, the part after it. -/
def splitFirstEq : List Char → List Char × Option (List Char)
  | [] => ([], none)
  | x :: rest =>
    if x = '=' then ([], some rest)
    else ((x :: (splitFirstEq rest).1), (splitFirstEq rest).2)

/-- The token extraction in `ws_handler`:
`req.query_string().split('&')` and, per pair, `splitn(2, '=')`; the first
pair whose key is `"token"` yields the value. -/
def extractQueryToken (queryString : String) : Option String :=
  (splitChar '&' queryString.data).findSome? fun pair =>
    match (splitFirstEq pair).2 with
    | some value =>
      if (splitFirstEq pair).1 = "token".data then some ⟨value⟩ else none
    | none => none

/-- Result of the authentication prelude of `ws_handler`. -/
inductive AuthOutcome where
  | unauthorized (errorMessage : String)
  | upgraded
  deriving Repr, DecidableEq

/-- The authentication prelude of `ws_handler`.  The request may carry a
bearer token in a header (`headerToken`), but the code consults only
`req.query_string()`: a missing query token rejects immediately and a
present one is checked with `verify_token`. -/
def ws_handler_auth (queryString : String) (headerToken : Option String)
    (configToken : String) : AuthOutcome :=
  match extractQueryToken queryString with
  | some token =>
    if verify_token configToken token then .upgraded
    else .unauthorized "Invalid token"
  | none => .unauthorized "Token required for WebSocket connection"

/-! ## File operations (`src/file_ops.rs`) -/

/-- A filesystem path, as its list of components. -/
abbrev PathC := List String

/-- The `std::io::ErrorKind`s used by `file_ops.rs`. -/
inductive IoErrorKind where
  | notFound
  | alreadyExists
  | invalidInput
  deriving Repr, DecidableEq

/-- A `std::io::Error`: kind plus message. -/
structure IoError where
  kind : IoErrorKind
  message : String
  deriving Repr, DecidableEq

/-- Filesystem reads and writes a file operation performs, in order. -/
inductive FsAction where
  | existsCheck (p : PathC)
  | readToString (p : PathC)
  | createDirAll (p : PathC)
  | writeContent (p : PathC) (content : String)
  | removeFile (p : PathC)
  deriving Repr, DecidableEq

/-- Outcomes of the OS filesystem calls, as oracles: `canonicalize`
returns `none` on error (the code then falls back to the raw path). -/
structure FsEnv where
  canonicalize : PathC → Option PathC
  pathExists : PathC → Bool
  readResult : PathC → Except IoError String
  dirResult : PathC → Except IoError Unit
  writeResult : PathC → Except IoError Unit
  removeResult : PathC → Except IoError Unit

/-- `path.contains("..")` on the character list: two consecutive dots
occur somewhere. -/
def hasDotDot : List Char → Bool
  | [] => false
  | [_] => false
  | c₁ :: c₂ :: rest => (c₁ == '.' && c₂ == '.') || hasDotDot (c₂ :: rest)

/-- `path.contains("..")`. -/
def containsDotDot (s : String) : Bool := hasDotDot s.data

/-- `path.trim_start_matches('/')`. -/
def trimLeadingSlashes (s : String) : String := ⟨s.data.dropWhile (· = '/')⟩

/-- Components of a relative path string. -/
def parseRel (s : String) : PathC := (s.splitOn "/").filter (fun c => c ≠ "")

/-- `canonicalize().unwrap_or_else(|_| raw)`. -/
def canonOr (env : FsEnv) (p : PathC) : PathC := (env.canonicalize p).getD p

/-- `safe_join`: trims leading `/`, rejects any path containing `..`,
joins, and rejects when the canonicalised join does not start with the
canonicalised base. -/
def safe_join (env : FsEnv) (base : PathC) (path : String) : Except IoError PathC :=
  let trimmed := trimLeadingSlashes path
  if containsDotDot trimmed then
    .error ⟨.invalidInput, "Directory traversal not allowed"⟩
  else
    let joined := base ++ parseRel trimmed
    let canonical_base := canonOr env base
    let canonical_joined := canonOr env joined
    if canonical_base.isPrefixOf canonical_joined then .ok joined
    else .error ⟨.invalidInput, "Path escapes base directory"⟩

/-- `Path::parent`: the path without its last component. -/
def parentPath : PathC → Option PathC
  | [] => none
  | p => some p.dropLast

/-- `Path::file_stem` on the last component: the part before the last
`.` that is not the leading character; `"Untitled"` when there is none. -/
def fileStem (p : PathC) : String :=
  match p.getLast? with
  | none => "Untitled"
  | some name =>
    let cs := name.data
    let dotIdxs := (List.range cs.length).filter fun i =>
      decide (0 < i) && decide (cs.get? i = some '.')
    match dotIdxs.getLast? with
    | some i => ⟨cs.take i⟩
    | none => name

/-- `read_file`: `safe_join`, existence check, `fs::read_to_string`. -/
def read_file (env : FsEnv) (base : PathC) (file_path : String) :
    Except IoError String × List FsAction :=
  match safe_join env base file_path with
  | .error e => (.error e, [])
  | .ok full_path =>
    if env.pathExists full_path then
      (env.readResult full_path, [.existsCheck full_path, .readToString full_path])
    else
      (.error ⟨.notFound, "File not found: " ++ file_path⟩, [.existsCheck full_path])

/-- `write_file`: `safe_join`, `fs::create_dir_all` on the parent,
`fs::write`. -/
def write_file (env : FsEnv) (base : PathC) (file_path : String) (content : String) :
    Except IoError Unit × List FsAction :=
  match safe_join env base file_path with
  | .error e => (.error e, [])
  | .ok full_path =>
    match parentPath full_path with
    | some par =>
      match env.dirResult par with
      | .error e => (.error e, [.createDirAll par])
      | .ok _ =>
        (env.writeResult full_path, [.createDirAll par, .writeContent full_path content])
    | none => (env.writeResult full_path, [.writeContent full_path content])

/-- `create_file`: `safe_join`, existence check (`AlreadyExists`),
`fs::create_dir_all` on the parent, `fs::write` of the given or default
content. -/
def create_file (env : FsEnv) (base : PathC) (file_path : String) (content : Option String) :
    Except IoError Unit × List FsAction :=
  match safe_join env base file_path with
  | .error e => (.error e, [])
  | .ok full_path =>
    if env.pathExists full_path then
      (.error ⟨.alreadyExists, "File already exists: " ++ file_path⟩,
        [.existsCheck full_path])
    else
      let default_content := "# " ++ fileStem full_path ++ "\n\nNew runbook created.\n"
      let written := content.getD default_content
      match parentPath full_path with
      | some par =>
        match env.dirResult par with
        | .error e => (.error e, [.existsCheck full_path, .createDirAll par])
        | .ok _ =>
          (env.writeResult full_path,
            [.existsCheck full_path, .createDirAll par, .writeContent full_path written])
      | none =>
        (env.writeResult full_path,
          [.existsCheck full_path, .writeContent full_path written])

/-- `delete_file`: `safe_join`, existence check, `fs::remove_file`. -/
def delete_file (env : FsEnv) (base : PathC) (file_path : String) :
    Except IoError Unit × List FsAction :=
  match safe_join env base file_path with
  | .error e => (.error e, [])
  | .ok full_path =>
    if env.pathExists full_path then
      (env.removeResult full_path, [.existsCheck full_path, .removeFile full_path])
    else
      (.error ⟨.notFound, "File not found: " ++ file_path⟩, [.existsCheck full_path])

/-! ## Concrete environments for instantiating the theorems -/

/-- A spawn environment in which every OS call succeeds, with handle 0. -/
def dummySpawnEnv : SpawnEnv := ⟨.ok 0, .ok (), .ok 0, .ok ()⟩

/-- A spawn environment whose `spawn_command` call fails. -/
def failSpawnEnv : SpawnEnv := ⟨.ok 7, .error "spawn failed", .ok 3, .ok ()⟩

/-- A filesystem in which `canonicalize` errors (so the code falls back to
the raw paths) and nothing exists. -/
def trivialFsEnv : FsEnv where
  canonicalize := fun _ => none
  pathExists := fun _ => false
  readResult := fun _ => .error ⟨.notFound, "no file"⟩
  dirResult := fun _ => .ok ()
  writeResult := fun _ => .ok ()
  removeResult := fun _ => .ok ()

/-! ## Supporting lemmas -/

@[simp] theorem mapGet_nil {V : Type} (k : String) : mapGet (V := V) k [] = none := rfl

@[simp] theorem mapGet_cons {V : Type} (k k₂ : String) (v : V) (rest : List (String × V)) :
    mapGet k ((k₂, v) :: rest) = if k₂ = k then some v else mapGet k rest := rfl

theorem mapGet_mapInsert_self {V : Type} (k : String) (v : V) (m : List (String × V)) :
    mapGet k (mapInsert k v m) = some v := by
  induction m with
  | nil => simp [mapInsert]
  | cons hd tl ih =>
    obtain ⟨k₂, v₂⟩ := hd
    by_cases h : k₂ = k <;> simp [mapInsert, h, ih]

theorem mapGet_mapRemove_self {V : Type} (k : String) (m : List (String × V)) :
    mapGet k (mapRemove k m) = none := by
  induction m with
  | nil => simp [mapRemove]
  | cons hd tl ih =>
    obtain ⟨k₂, v₂⟩ := hd
    by_cases h : k₂ = k <;> simp [mapRemove, h, ih]

theorem mapRemove_absent {V : Type} (k : String) (m : List (String × V))
    (h : mapGet k m = none) : mapRemove k m = m := by
  induction m with
  | nil => rfl
  | cons hd tl ih =>
    obtain ⟨k₂, v₂⟩ := hd
    by_cases hk : k₂ = k
    · simp [hk] at h
    · simp [mapRemove, hk]
      exact ih (by simpa [hk] using h)

@[simp] theorem mapKeys_nil {V : Type} : mapKeys ([] : List (String × V)) = [] := rfl

@[simp] theorem mapKeys_cons {V : Type} (k : String) (v : V) (m : List (String × V)) :
    mapKeys ((k, v) :: m) = k :: mapKeys m := rfl

theorem mapGet_mapRemove_ne {V : Type} (k k' : String) (m : List (String × V))
    (h : k' ≠ k) : mapGet k (mapRemove k' m) = mapGet k m := by
  induction m with
  | nil => rfl
  | cons hd tl ih =>
    obtain ⟨k₂, v₂⟩ := hd
    by_cases hk : k₂ = k'
    · subst hk
      simp [mapRemove, ih, h]
    · simp only [mapRemove, hk, if_false, mapGet_cons]
      by_cases hk2 : k₂ = k <;> simp [hk2, ih]

theorem mapGet_mapInsert_ne {V : Type} (k k' : String) (v : V) (m : List (String × V))
    (h : k' ≠ k) : mapGet k (mapInsert k' v m) = mapGet k m := by
  induction m with
  | nil => simp [mapInsert, h]
  | cons hd tl ih =>
    obtain ⟨k₂, v₂⟩ := hd
    by_cases hk : k₂ = k'
    · subst hk
      simp [mapInsert, h]
    · simp only [mapInsert, hk, if_false, mapGet_cons]
      by_cases hk2 : k₂ = k <;> simp [hk2, ih]

theorem mapKeys_mapInsert_present {V : Type} (k : String) (v : V) (m : List (String × V))
    (h : mapGet k m ≠ none) : mapKeys (mapInsert k v m) = mapKeys m := by
  induction m with
  | nil => simp at h
  | cons hd tl ih =>
    obtain ⟨k₂, v₂⟩ := hd
    by_cases hk : k₂ = k
    · subst hk
      simp [mapInsert]
    · simp only [mapInsert, hk, if_false, mapKeys_cons]
      rw [ih (by simpa [hk] using h)]

theorem mem_mapKeys_mapInsert {V : Type} (a k : String) (v : V) (m : List (String × V)) :
    a ∈ mapKeys (mapInsert k v m) ↔ a = k ∨ a ∈ mapKeys m := by
  induction m with
  | nil => simp [mapInsert]
  | cons hd tl ih =>
    obtain ⟨k₂, v₂⟩ := hd
    by_cases hk : k₂ = k
    · subst hk
      simp [mapInsert]
    · simp only [mapInsert, hk, if_false, mapKeys_cons, List.mem_cons] at ih ⊢
      tauto

theorem mapKeys_nodup_mapInsert {V : Type} (k : String) (v : V) (m : List (String × V))
    (h : (mapKeys m).Nodup) : (mapKeys (mapInsert k v m)).Nodup := by
  induction m with
  | nil => simp [mapInsert]
  | cons hd tl ih =>
    obtain ⟨k₂, v₂⟩ := hd
    rw [mapKeys_cons, List.nodup_cons] at h
    obtain ⟨hnotin, hnodup⟩ := h
    by_cases hk : k₂ = k
    · subst hk
      rw [show mapInsert k₂ v ((k₂, v₂) :: tl) = (k₂, v) :: tl by simp [mapInsert],
        mapKeys_cons, List.nodup_cons]
      exact ⟨hnotin, hnodup⟩
    · rw [show mapInsert k v ((k₂, v₂) :: tl) = (k₂, v₂) :: mapInsert k v tl by
        simp [mapInsert, hk], mapKeys_cons, List.nodup_cons]
      refine ⟨fun hmem => ?_, ih hnodup⟩
      rcases (mem_mapKeys_mapInsert k₂ k v tl).mp hmem with h₁ | h₁
      · exact hk h₁
      · exact hnotin h₁

/-- Lossy conversion is the identity on well-formed UTF-8. -/
theorem utf8LossyBytes_of_valid :
    ∀ (n : Nat) (l : Bytes), l.length ≤ n → isValidUtf8 l = true → utf8LossyBytes l = l := by
  intro n
  induction n with
  | zero =>
    intro l hl _
    have : l = [] := List.length_eq_zero.mp (Nat.le_zero.mp hl)
    subst this
    rfl
  | succ n ih =>
    intro l hl hv
    match l with
    | [] => rfl
    | b :: rest =>
      rw [isValidUtf8.eq_def] at hv
      rw [utf8LossyBytes.eq_def]
      simp only at hv ⊢
      by_cases h1 : b < 0x80
      · simp only [h1, if_true] at hv ⊢
        rw [ih rest (by simp at hl; omega) hv]
      · simp only [h1, if_false] at hv ⊢
        by_cases h2 : b < 0xC2
        · simp [h2] at hv
        · simp only [h2, if_false] at hv ⊢
          by_cases h3 : b < 0xE0
          · simp only [h3, if_true] at hv ⊢
            cases rest with
            | nil => simp at hv
            | cons b₂ rest₂ =>
              simp only [Bool.and_eq_true] at hv
              simp only [hv.1, if_true]
              rw [ih rest₂ (by simp at hl; omega) hv.2]
          · simp only [h3, if_false] at hv ⊢
            by_cases h4 : b < 0xF0
            · simp only [h4, if_true] at hv ⊢
              cases rest with
              | nil => simp at hv
              | cons b₂ rest₂ =>
                simp only [Bool.and_eq_true] at hv
                obtain ⟨hv1, hv2⟩ := hv
                cases rest₂ with
                | nil => simp at hv2
                | cons b₃ rest₃ =>
                  simp only [Bool.and_eq_true] at hv2
                  simp only [hv1, hv2.1, if_true]
                  rw [ih rest₃ (by simp at hl; omega) hv2.2]
            · simp only [h4, if_false] at hv ⊢
              by_cases h5 : b < 0xF5
              · simp only [h5, if_true] at hv ⊢
                cases rest with
                | nil => simp at hv
                | cons b₂ rest₂ =>
                  simp only [Bool.and_eq_true] at hv
                  obtain ⟨hv1, hv2⟩ := hv
                  cases rest₂ with
                  | nil => simp at hv2
                  | cons b₃ rest₃ =>
                    simp only [Bool.and_eq_true] at hv2
                    obtain ⟨hv2a, hv2b⟩ := hv2
                    cases rest₃ with
                    | nil => simp at hv2b
                    | cons b₄ rest₄ =>
                      simp only [Bool.and_eq_true] at hv2b
                      simp only [hv1, hv2a, hv2b.1, if_true]
                      rw [ih rest₄ (by simp at hl; omega) hv2b.2]
              · simp [h5] at hv

theorem mapGet_mapInsert_ne_none {V : Type} (k k' : String) (v : V) (m : List (String × V))
    (h : mapGet k m ≠ none) : mapGet k (mapInsert k' v m) ≠ none := by
  by_cases hk : k' = k
  · subst hk
    simp [mapGet_mapInsert_self]
  · rw [mapGet_mapInsert_ne k k' v m hk]
    exact h

theorem mapRemove_idem {V : Type} (k : String) (m : List (String × V)) :
    mapRemove k (mapRemove k m) = mapRemove k m :=
  mapRemove_absent k _ (mapGet_mapRemove_self k m)

/-- The reader loop emits `output` frames only — never `closed`. -/
theorem readLoop_no_closed (sid : String) (rs : List ReadResult) :
    (readLoop sid rs).countP isClosedFrame = 0 := by
  induction rs with
  | nil => rfl
  | cons r rest ih =>
    cases r with
    | ok chunk =>
      cases chunk with
      | nil => rfl
      | cons b bs => simp [readLoop, List.countP_cons, isClosedFrame, ih]
    | err => rfl

theorem outputConcat_cons (r : WsResponse) (rs : List WsResponse) :
    outputConcat (r :: rs) = outputData r ++ outputConcat rs := by
  simp [outputConcat]

/-- Dropping leading `/` characters cannot erase an occurrence of `..`. -/
theorem hasDotDot_dropWhileSlash (cs : List Char) (h : hasDotDot cs = true) :
    hasDotDot (cs.dropWhile (· = '/')) = true := by
  induction cs with
  | nil => simp [hasDotDot] at h
  | cons c rest ih =>
    by_cases hc : c = '/'
    · subst hc
      rw [List.dropWhile_cons_of_pos (by simp)]
      apply ih
      cases rest with
      | nil => simp [hasDotDot] at h
      | cons c₂ rest₂ =>
        simpa [hasDotDot] using h
    · rw [List.dropWhile_cons_of_neg (by simpa using hc)]
      exact h

theorem containsDotDot_trimLeadingSlashes (s : String) (h : containsDotDot s = true) :
    containsDotDot (trimLeadingSlashes s) = true :=
  hasDotDot_dropWhileSlash s.data h

/-- `safe_join` rejects with `InvalidInput` whenever the path contains
`..` or the canonicalised join does not start with the canonicalised
base. -/
theorem safe_join_invalid (env : FsEnv) (base : PathC) (path : String)
    (h : containsDotDot path = true ∨
      (canonOr env base).isPrefixOf
        (canonOr env (base ++ parseRel (trimLeadingSlashes path))) = false) :
    ∃ msg, safe_join env base path = .error ⟨.invalidInput, msg⟩ := by
  unfold safe_join
  by_cases hdd : containsDotDot (trimLeadingSlashes path) = true
  · exact ⟨"Directory traversal not allowed", by simp [hdd]⟩
  · rcases h with h | h
    · exact absurd (containsDotDot_trimLeadingSlashes path h) hdd
    · refine ⟨"Path escapes base directory", ?_⟩
      simp only [Bool.not_eq_true] at hdd
      simp [hdd, h]

/-! ## Claim C7: spawn failure registers nothing -/

/-- C7: a `create` whose session spawn fails emits an `error` frame to the
owning connection and registers nothing: the registry is unchanged and no
`created` frame is sent for that attempt. -/
theorem create_spawn_failure_registers_nothing
    (reg : Registry) (env : SpawnEnv) (freshId : String) (id : Option String) (e : String)
    (h : (create_pty_session (id.getD freshId) env reg).1 = .error e) :
    (handleWsMessage reg env freshId (.create id)).1 = reg ∧
    (handleWsMessage reg env freshId (.create id)).2.2 = [.error e] ∧
    ∀ sid, WsResponse.created sid ∉ (handleWsMessage reg env freshId (.create id)).2.2 := by
  rcases hc : create_pty_session (id.getD freshId) env reg with ⟨res, effs⟩
  rw [hc] at h
  simp only at h
  subst h
  refine ⟨?_, ?_, ?_⟩ <;> simp [handleWsMessage, hc]

/-- Closed instance of `create_spawn_failure_registers_nothing` at a
concrete failing environment. -/
theorem create_spawn_failure_registers_nothing_witness :
    (handleWsMessage [] failSpawnEnv "u" (.create (some "s"))).1 = [] ∧
    (handleWsMessage [] failSpawnEnv "u" (.create (some "s"))).2.2 =
      [.error "spawn failed"] ∧
    ∀ sid, WsResponse.created sid ∉
      (handleWsMessage [] failSpawnEnv "u" (.create (some "s"))).2.2 :=
  create_spawn_failure_registers_nothing [] failSpawnEnv "u" (some "s") "spawn failed" rfl

/-! ## Claim C8: default 80×24 geometry, changed only by `resize` -/

/-- C8: every pty is opened with the default 80×24 geometry, and a resize
of the terminal control handle happens only for an explicit `resize`
frame, which propagates exactly the requested cols and rows. -/
theorem pty_default_geometry_and_resize
    (reg : Registry) (env : SpawnEnv) (freshId : String) (m : WsMessage) :
    (∀ sz, Effect.openPty sz ∈ (handleWsMessage reg env freshId m).2.1 →
      sz = defaultPtySize) ∧
    (∀ h sz, Effect.resizePty h sz ∈ (handleWsMessage reg env freshId m).2.1 →
      ∃ sid s, m = .resize sid sz.cols sz.rows ∧ mapGet sid reg = some s ∧
        h = s.master ∧ sz.pixel_width = 0 ∧ sz.pixel_height = 0) := by
  obtain ⟨o, sc, tw, cr⟩ := env
  constructor
  · intro sz hsz
    cases m with
    | create id =>
      cases o <;> cases sc <;> cases tw <;> cases cr <;>
        simp_all [handleWsMessage, create_pty_session]
    | input sid dat =>
      rcases hg : mapGet sid reg with _ | s <;> simp [handleWsMessage, hg] at hsz
    | resize sid c r =>
      rcases hg : mapGet sid reg with _ | s <;> simp [handleWsMessage, hg] at hsz
    | close sid => simp [handleWsMessage] at hsz
  · intro h sz hsz
    cases m with
    | create id =>
      cases o <;> cases sc <;> cases tw <;> cases cr <;>
        simp [handleWsMessage, create_pty_session] at hsz
    | input sid dat =>
      rcases hg : mapGet sid reg with _ | s <;> simp [handleWsMessage, hg] at hsz
    | resize sid c r =>
      rcases hg : mapGet sid reg with _ | s <;> simp [handleWsMessage, hg] at hsz
      obtain ⟨hh, hz⟩ := hsz
      subst hh
      subst hz
      exact ⟨sid, s, rfl, hg, rfl, rfl, rfl⟩
    | close sid => simp [handleWsMessage] at hsz

/-- Closed instance of `pty_default_geometry_and_resize` at a concrete
`resize` frame on a live session. -/
theorem pty_default_geometry_and_resize_witness :
    ∃ sid s, WsMessage.resize "a" 100 50 =
        WsMessage.resize sid (PtySize.mk 50 100 0 0).cols (PtySize.mk 50 100 0 0).rows ∧
      mapGet sid [("a", PtySession.mk 1 2)] = some s ∧
      (2 : Nat) = s.master ∧ (PtySize.mk 50 100 0 0).pixel_width = 0 ∧
      (PtySize.mk 50 100 0 0).pixel_height = 0 :=
  (pty_default_geometry_and_resize [("a", ⟨1, 2⟩)] dummySpawnEnv "u"
    (.resize "a" 100 50)).2 2 ⟨50, 100, 0, 0⟩ (by decide)

/-! ## Claim C9: one shared registry, no ownership check -/

/-- C9: the registry is one process-wide map and `input`/`resize`/`close`
dispatch by session id alone: for a session present in the registry, a
frame sent by connection `B` changes the registry and drives the session's
handles exactly as the same frame sent by connection `A` would, and the
frames sent back differ only in which connection they are routed to. -/
theorem session_frames_ignore_sender
    (reg : Registry) (env : SpawnEnv) (freshId : String) (A B : ConnId)
    (sid : String) (s : PtySession) (m : WsMessage)
    (hs : mapGet sid reg = some s) :
    (serverStep reg env freshId A m).1 = (serverStep reg env freshId B m).1 ∧
    (serverStep reg env freshId A m).2.1 = (serverStep reg env freshId B m).2.1 ∧
    (serverStep reg env freshId A m).2.2.map Prod.snd =
      (serverStep reg env freshId B m).2.2.map Prod.snd ∧
    (∀ dat, m = .input sid dat →
      (serverStep reg env freshId B m).2.1 =
        [.writeBytes s.writer dat, .flushWriter s.writer]) ∧
    (∀ c r, m = .resize sid c r →
      (serverStep reg env freshId B m).2.1 = [.resizePty s.master ⟨r, c, 0, 0⟩]) ∧
    (m = .close sid → (serverStep reg env freshId B m).1 = mapRemove sid reg) := by
  refine ⟨rfl, rfl, by simp [serverStep], ?_, ?_, ?_⟩
  · intro dat hmeq
    subst hmeq
    simp [serverStep, handleWsMessage, hs]
  · intro c r hmeq
    subst hmeq
    simp [serverStep, handleWsMessage, hs]
  · intro hmeq
    subst hmeq
    simp [serverStep, handleWsMessage]

/-- Closed instance of `session_frames_ignore_sender`: connection 1 writes
to a session created by connection 0. -/
theorem session_frames_ignore_sender_witness :
    (serverStep [("a", ⟨3, 4⟩)] dummySpawnEnv "u" 0 (.input "a" [104])).1 =
      (serverStep [("a", ⟨3, 4⟩)] dummySpawnEnv "u" 1 (.input "a" [104])).1 ∧
    (serverStep [("a", ⟨3, 4⟩)] dummySpawnEnv "u" 0 (.input "a" [104])).2.1 =
      (serverStep [("a", ⟨3, 4⟩)] dummySpawnEnv "u" 1 (.input "a" [104])).2.1 ∧
    (serverStep [("a", ⟨3, 4⟩)] dummySpawnEnv "u" 0 (.input "a" [104])).2.2.map Prod.snd =
      (serverStep [("a", ⟨3, 4⟩)] dummySpawnEnv "u" 1 (.input "a" [104])).2.2.map Prod.snd ∧
    (∀ dat, WsMessage.input "a" [104] = .input "a" dat →
      (serverStep [("a", ⟨3, 4⟩)] dummySpawnEnv "u" 1 (.input "a" [104])).2.1 =
        [.writeBytes (PtySession.mk 3 4).writer dat,
         .flushWriter (PtySession.mk 3 4).writer]) ∧
    (∀ c r, WsMessage.input "a" [104] = .resize "a" c r →
      (serverStep [("a", ⟨3, 4⟩)] dummySpawnEnv "u" 1 (.input "a" [104])).2.1 =
        [.resizePty (PtySession.mk 3 4).master ⟨r, c, 0, 0⟩]) ∧
    (WsMessage.input "a" [104] = .close "a" →
      (serverStep [("a", ⟨3, 4⟩)] dummySpawnEnv "u" 1 (.input "a" [104])).1 =
        mapRemove "a" [("a", ⟨3, 4⟩)]) :=
  session_frames_ignore_sender [("a", ⟨3, 4⟩)] dummySpawnEnv "u" 0 1 "a"
    ⟨3, 4⟩ (.input "a" [104]) (by decide)

/-! ## Claim C1: shell self-exit and the `closed` frame -/

/-- C1 is false on the code: at the concrete stream in which the shell
exits on its own (`read` returns `Ok(0)`), the reader loop emits zero
`closed` frames for the session, not exactly one. -/
theorem shell_exit_closed_counterexample :
    ¬ ((readLoop "s1" [ReadResult.ok []]).countP isClosedFrame = 1) := by decide

/-- C1 corrected: a shell that exits on its own (EOF or read error in the
reader loop) produces no `closed` frame at all, and the session's registry
entry is not removed — it stays until an explicit `close` frame carries
exactly its id. -/
theorem shell_exit_no_closed_no_removal
    (sid : String) (rs : List ReadResult) (reg : Registry) (env : SpawnEnv)
    (freshId : String) (m : WsMessage) (s : PtySession)
    (hs : mapGet sid reg = some s) (hm : m ≠ .close sid) :
    (readLoop sid rs).countP isClosedFrame = 0 ∧
    mapGet sid (handleWsMessage reg env freshId m).1 ≠ none := by
  refine ⟨readLoop_no_closed sid rs, ?_⟩
  cases m with
  | create id =>
    obtain ⟨o, sc, tw, cr⟩ := env
    cases o with
    | error e => simp [handleWsMessage, create_pty_session, hs]
    | ok master =>
      cases sc with
      | error e => simp [handleWsMessage, create_pty_session, hs]
      | ok u =>
        cases tw with
        | error e => simp [handleWsMessage, create_pty_session, hs]
        | ok writer =>
          cases cr with
          | error e => simp [handleWsMessage, create_pty_session, hs]
          | ok u₂ =>
            simp only [handleWsMessage, create_pty_session]
            exact mapGet_mapInsert_ne_none sid _ _ reg (by simp [hs])
  | input sid₂ dat =>
    rcases hg : mapGet sid₂ reg with _ | s₂ <;> simp [handleWsMessage, hg, hs]
  | resize sid₂ c r =>
    rcases hg : mapGet sid₂ reg with _ | s₂ <;> simp [handleWsMessage, hg, hs]
  | close sid₂ =>
    have hne : sid₂ ≠ sid := fun hEq => hm (by rw [hEq])
    simp [handleWsMessage, mapGet_mapRemove_ne sid sid₂ reg hne, hs]

/-- Closed instance of `shell_exit_no_closed_no_removal`: output then EOF
emits no `closed`, and an unrelated frame leaves the entry present. -/
theorem shell_exit_no_closed_no_removal_witness :
    (readLoop "a" [ReadResult.ok [104, 105], ReadResult.ok []]).countP isClosedFrame = 0 ∧
    mapGet "a" (handleWsMessage [("a", ⟨0, 1⟩)] dummySpawnEnv "u" (.input "a" [10])).1 ≠
      none :=
  shell_exit_no_closed_no_removal "a" [.ok [104, 105], .ok []] [("a", ⟨0, 1⟩)]
    dummySpawnEnv "u" (.input "a" [10]) ⟨0, 1⟩ (by decide) (by decide)

/-! ## Claim C2: `close` idempotence -/

/-- C2 is false on the code: two `close` frames for the same id produce
two `closed` frames, and a `close` for an id not in the registry still
produces a `closed` frame rather than no outbound frame. -/
theorem close_idempotence_counterexample :
    ¬ ((((handleWsMessage [("a", ⟨0, 0⟩)] dummySpawnEnv "u" (.close "a")).2.2 ++
          (handleWsMessage
            (handleWsMessage [("a", ⟨0, 0⟩)] dummySpawnEnv "u" (.close "a")).1
            dummySpawnEnv "u" (.close "a")).2.2).countP isClosedFrame = 1 ∧
        (handleWsMessage [] dummySpawnEnv "u" (.close "b")).2.2 = [])) := by decide

/-- C2 corrected: every `close` frame — whether or not its id is in the
registry — emits exactly one `closed{session_id}` response, so two
`close` frames for one id yield two `closed` frames; only the registry
removal itself is idempotent. -/
theorem close_always_acknowledges
    (reg : Registry) (env : SpawnEnv) (freshId sid : String) :
    (handleWsMessage reg env freshId (.close sid)).2.2 = [.closed sid] ∧
    (handleWsMessage reg env freshId (.close sid)).1 = mapRemove sid reg ∧
    (mapGet sid reg = none → (handleWsMessage reg env freshId (.close sid)).1 = reg) ∧
    mapRemove sid (mapRemove sid reg) = mapRemove sid reg := by
  refine ⟨rfl, rfl, fun h => ?_, mapRemove_idem sid reg⟩
  simp [handleWsMessage, mapRemove_absent sid reg h]

/-- Closed instance of `close_always_acknowledges` at an id absent from
the registry. -/
theorem close_always_acknowledges_witness :
    (handleWsMessage [] dummySpawnEnv "u" (.close "b")).2.2 = [.closed "b"] ∧
    (handleWsMessage [] dummySpawnEnv "u" (.close "b")).1 = [] ∧
    mapRemove "b" (mapRemove "b" ([] : Registry)) = mapRemove "b" ([] : Registry) :=
  ⟨(close_always_acknowledges [] dummySpawnEnv "u" "b").1,
   (close_always_acknowledges [] dummySpawnEnv "u" "b").2.2.1 rfl,
   (close_always_acknowledges [] dummySpawnEnv "u" "b").2.2.2⟩

/-! ## Claim C3: teardown on connection drop -/

/-- C3 is false on the code: with one live session, a transport close
merely ends the receiver task — the registry still contains the session,
so it is not true that the registry contains none of them. -/
theorem connection_teardown_counterexample :
    ¬ ((receiverLoop (fun _ => dummySpawnEnv) (fun _ => "u") 0 [("a", ⟨0, 0⟩)]
        [ConnEvent.closeFrame]).1 = []) := by decide

/-- C3 corrected: on transport close or a fatal receive error the
receiver task just breaks out of its loop: no owned session is closed, no
process is signaled, the registry is left exactly as it was, and no
effect or frame is produced. -/
theorem transport_close_no_teardown
    (env : Nat → SpawnEnv) (fresh : Nat → String) (n : Nat) (reg : Registry)
    (rest : List ConnEvent) (ev : ConnEvent)
    (hev : ev = .closeFrame ∨ ev = .recvError) :
    receiverLoop env fresh n reg (ev :: rest) = (reg, [], []) := by
  rcases hev with h | h <;> subst h <;> rfl

/-- Closed instance of `transport_close_no_teardown` with one live
session. -/
theorem transport_close_no_teardown_witness :
    receiverLoop (fun _ => dummySpawnEnv) (fun _ => "u") 0 [("a", ⟨0, 0⟩)]
      [ConnEvent.closeFrame] = ([("a", ⟨0, 0⟩)], [], []) :=
  transport_close_no_teardown (fun _ => dummySpawnEnv) (fun _ => "u") 0
    [("a", ⟨0, 0⟩)] [] .closeFrame (Or.inl rfl)

/-! ## Claim C4: id collision on register -/

/-- C4 is false on the code: a `create` carrying an id already present in
the registry replaces the existing session (`HashMap::insert`) and still
answers `created` — it does not fail as a collision. -/
theorem register_collision_counterexample :
    mapGet "a" (handleWsMessage [("a", ⟨5, 6⟩)] dummySpawnEnv "u"
        (.create (some "a"))).1 = some ⟨0, 0⟩ ∧
    ¬ (mapGet "a" (handleWsMessage [("a", ⟨5, 6⟩)] dummySpawnEnv "u"
        (.create (some "a"))).1 = some ⟨5, 6⟩) ∧
    (handleWsMessage [("a", ⟨5, 6⟩)] dummySpawnEnv "u" (.create (some "a"))).2.2 =
      [.created "a"] := by decide

/-- C4 corrected: registering a session under an id already present does
not fail — the new session replaces the existing one and the `create`
emits `created` as usual; what survives of the claim is that a map key is
never duplicated, so ids remain unique among live sessions. -/
theorem register_replaces_on_collision
    (reg : Registry) (env : SpawnEnv) (freshId id : String) (master writer : Nat)
    (hopen : env.openpty = .ok master) (hspawn : env.spawnCommand = .ok ())
    (hw : env.takeWriter = .ok writer) (hr : env.cloneReader = .ok ())
    (hpresent : mapGet id reg ≠ none) :
    (handleWsMessage reg env freshId (.create (some id))).1 =
      mapInsert id ⟨writer, master⟩ reg ∧
    mapGet id (handleWsMessage reg env freshId (.create (some id))).1 =
      some ⟨writer, master⟩ ∧
    (handleWsMessage reg env freshId (.create (some id))).2.2 = [.created id] ∧
    mapKeys (mapInsert id ⟨writer, master⟩ reg) = mapKeys reg ∧
    ((mapKeys reg).Nodup →
      (mapKeys (handleWsMessage reg env freshId (.create (some id))).1).Nodup) := by
  refine ⟨?_, ?_, ?_, mapKeys_mapInsert_present id _ reg hpresent, fun hnd => ?_⟩
  · simp [handleWsMessage, create_pty_session, hopen, hspawn, hw, hr]
  · simp [handleWsMessage, create_pty_session, hopen, hspawn, hw, hr,
      mapGet_mapInsert_self]
  · simp [handleWsMessage, create_pty_session, hopen, hspawn, hw, hr]
  · simp only [handleWsMessage, create_pty_session, hopen, hspawn, hw, hr]
    exact mapKeys_nodup_mapInsert id _ reg hnd

/-- Closed instance of `register_replaces_on_collision` at a registry
that already binds the requested id. -/
theorem register_replaces_on_collision_witness :
    (handleWsMessage [("a", ⟨5, 6⟩)] dummySpawnEnv "u" (.create (some "a"))).1 =
      mapInsert "a" ⟨0, 0⟩ [("a", ⟨5, 6⟩)] ∧
    mapGet "a" (handleWsMessage [("a", ⟨5, 6⟩)] dummySpawnEnv "u"
      (.create (some "a"))).1 = some ⟨0, 0⟩ ∧
    (handleWsMessage [("a", ⟨5, 6⟩)] dummySpawnEnv "u" (.create (some "a"))).2.2 =
      [.created "a"] ∧
    mapKeys (mapInsert "a" (⟨0, 0⟩ : PtySession) [("a", ⟨5, 6⟩)]) =
      mapKeys [("a", (⟨5, 6⟩ : PtySession))] ∧
    ((mapKeys [("a", (⟨5, 6⟩ : PtySession))]).Nodup →
      (mapKeys (handleWsMessage [("a", ⟨5, 6⟩)] dummySpawnEnv "u"
        (.create (some "a"))).1).Nodup) :=
  register_replaces_on_collision [("a", ⟨5, 6⟩)] dummySpawnEnv "u" "a" 0 0
    rfl rfl rfl rfl (by decide)

/-! ## Claim C5: lossless uninterpreted output -/

/-- C5 is false on the code: a chunk consisting of the single byte `0xFF`
(which the shell may emit — it is not valid UTF-8) is altered by
`String::from_utf8_lossy`: the forwarded data is the replacement
character's bytes `EF BF BD`, not the emitted byte. -/
theorem lossless_output_counterexample :
    ¬ (outputConcat (readLoop "s" [ReadResult.ok [0xFF], ReadResult.ok []]) =
        [0xFF]) := by decide

/-- C5 corrected: each read chunk is forwarded immediately and in order,
but through `String::from_utf8_lossy`; the concatenated `data` of the
`output` frames equals the emitted byte sequence exactly when every read
chunk is well-formed UTF-8 (invalid bytes are substituted, as the
counterexample shows). -/
theorem output_concat_of_valid_chunks
    (sid : String) (chunks : List Bytes)
    (h : ∀ c ∈ chunks, c ≠ [] ∧ isValidUtf8 c = true) :
    outputConcat (readLoop sid (chunks.map ReadResult.ok ++ [ReadResult.ok []])) =
      chunks.flatten := by
  induction chunks with
  | nil => rfl
  | cons c cs ih =>
    obtain ⟨hne, hv⟩ := h c (List.mem_cons_self c cs)
    obtain ⟨b, bs, rfl⟩ : ∃ b bs, c = b :: bs := by
      cases c with
      | nil => exact absurd rfl hne
      | cons b bs => exact ⟨b, bs, rfl⟩
    rw [List.map_cons, List.cons_append,
      show readLoop sid (ReadResult.ok (b :: bs) ::
          (cs.map ReadResult.ok ++ [ReadResult.ok []])) =
        .output sid (utf8LossyBytes (b :: bs)) ::
          readLoop sid (cs.map ReadResult.ok ++ [ReadResult.ok []]) from rfl,
      outputConcat_cons, ih (fun c₂ hc₂ => h c₂ (List.mem_cons_of_mem _ hc₂)),
      show outputData (.output sid (utf8LossyBytes (b :: bs))) =
        utf8LossyBytes (b :: bs) from rfl,
      utf8LossyBytes_of_valid (b :: bs).length (b :: bs) le_rfl hv,
      List.flatten_cons]

/-- Closed instance of `output_concat_of_valid_chunks` on the ASCII chunk
`"hi"`. -/
theorem output_concat_of_valid_chunks_witness :
    outputConcat (readLoop "s" ([[104, 105]].map ReadResult.ok ++ [ReadResult.ok []])) =
      [[104, 105]].flatten :=
  output_concat_of_valid_chunks "s" [[104, 105]] (by decide)

/-! ## Claim C6: token via query parameter or header -/

/-- C6 is false on the code: a request carrying the correct shared token
in a header but no `token` query parameter is rejected — the header
carrier is never consulted. -/
theorem header_token_counterexample :
    ¬ (ws_handler_auth "" (some "secret") "secret" = .upgraded) := by decide

/-- C6 corrected: only the query-parameter carrier is consulted — the
outcome is independent of any header-supplied token — and the upgrade
proceeds exactly when the query string carries a `token` parameter whose
value matches the configured secret; otherwise the upgrade is rejected
before any channel is established. -/
theorem ws_auth_query_param_only
    (queryString : String) (headerToken headerToken₂ : Option String)
    (configToken : String) :
    ws_handler_auth queryString headerToken configToken =
      ws_handler_auth queryString headerToken₂ configToken ∧
    (ws_handler_auth queryString headerToken configToken = .upgraded ↔
      ∃ t, extractQueryToken queryString = some t ∧
        verify_token configToken t = true) := by
  refine ⟨rfl, ?_⟩
  rcases hq : extractQueryToken queryString with _ | t
  · simp [ws_handler_auth, hq]
  · by_cases hv : verify_token configToken t = true <;>
      simp [ws_handler_auth, hq, hv]

/-- Closed instance of `ws_auth_query_param_only`: a query-parameter
token matching the secret upgrades, whatever the header carries. -/
theorem ws_auth_query_param_only_witness :
    ws_handler_auth "token=s" none "s" = .upgraded :=
  (ws_auth_query_param_only "token=s" none (some "x") "s").2.mpr
    ⟨"s", by decide, by decide⟩

/-! ## Claim C10: path traversal rejection in the file operations -/

/-- C10: whenever the requested path contains `..` or the canonicalised
join does not lie under the canonicalised base, all four file operations
fail with an `InvalidInput` error and perform no filesystem read or
write. -/
theorem file_ops_reject_unsafe_paths
    (env : FsEnv) (base : PathC) (path : String) (content : String)
    (content₂ : Option String)
    (h : containsDotDot path = true ∨
      (canonOr env base).isPrefixOf
        (canonOr env (base ++ parseRel (trimLeadingSlashes path))) = false) :
    (∃ e, read_file env base path = (.error e, []) ∧ e.kind = .invalidInput) ∧
    (∃ e, write_file env base path content = (.error e, []) ∧ e.kind = .invalidInput) ∧
    (∃ e, create_file env base path content₂ = (.error e, []) ∧ e.kind = .invalidInput) ∧
    (∃ e, delete_file env base path = (.error e, []) ∧ e.kind = .invalidInput) := by
  obtain ⟨msg, hsj⟩ := safe_join_invalid env base path h
  refine ⟨⟨⟨.invalidInput, msg⟩, ?_, rfl⟩, ⟨⟨.invalidInput, msg⟩, ?_, rfl⟩,
    ⟨⟨.invalidInput, msg⟩, ?_, rfl⟩, ⟨⟨.invalidInput, msg⟩, ?_, rfl⟩⟩ <;>
    simp [read_file, write_file, create_file, delete_file, hsj]

/-- Closed instance of `file_ops_reject_unsafe_paths` at the traversal
path `"../etc/passwd"`. -/
theorem file_ops_reject_unsafe_paths_witness :
    (∃ e, read_file trivialFsEnv ["base"] "../etc/passwd" = (.error e, []) ∧
      e.kind = .invalidInput) ∧
    (∃ e, write_file trivialFsEnv ["base"] "../etc/passwd" "c" = (.error e, []) ∧
      e.kind = .invalidInput) ∧
    (∃ e, create_file trivialFsEnv ["base"] "../etc/passwd" none = (.error e, []) ∧
      e.kind = .invalidInput) ∧
    (∃ e, delete_file trivialFsEnv ["base"] "../etc/passwd" = (.error e, []) ∧
      e.kind = .invalidInput) :=
  file_ops_reject_unsafe_paths trivialFsEnv ["base"] "../etc/passwd" "c" none
    (Or.inl (by decide))

end Runotebook
